import Mathlib

/-!
Verification of the graph execution engine of `src/orchestrator/graph_skeleton.py`
and its shell tool `src/orchestrator/tools/shell_tool.py`.

The Python program threads a dictionary-shaped `State` through a fixed LangGraph
pipeline of stage functions (doc_agent, planner, architect, coder, tester, cicd,
log_analyst), with one conditional edge evaluated by `should_continue`.

Modelling conventions of this shallow embedding:
* Python dictionaries with optional keys become structures with `Option` fields;
  `d.get(k)` is the field itself, `d.get(k, default)` is `field.getD default`.
* External collaborators (the design-document file, the persisted `roadmap.json`,
  the workspace directory listing, the two LLM chains, the Docker daemon) are
  an explicit environment `Env` supplied to the stage functions; an `Option`
  value of `none` for an LLM field means the corresponding external call raised.
* A stage whose body can raise an exception that is NOT caught inside the stage
  is embedded with result type `Except String _` (only `planner` needs this:
  its resume branch calls `json.load` and `task[ "id" ]` outside any try block).
  Stages that catch everything are total functions, as in the source.
* File writes and command executions performed by a stage are returned as an
  explicit `List Effect` so that persistence claims can be stated.
* Exception message texts are abbreviated; no claim depends on message wording.
  Quote characters that the Python log strings put around interpolated values
  are omitted from the embedded log strings.
* Python task ids are ASCII; `str.lower` is embedded as `Char.toLower` per char,
  and the single-character `str.replace` as a per-character map.
-/

namespace GraphSkeleton

/-- Task dictionary from the roadmap JSON (`graph_skeleton.py` tasks).
Every key access in the source uses either `task.get(k)` (total, yields
`Option`) or `task[k]` (raises `KeyError` when absent), so each field is
an `Option`. -/
structure Task where
  id : Option String := none
  title : Option String := none
  kind : Option String := none
  status : Option String := none
  deriving DecidableEq, Repr

/-- An entry of the roadmap list: either a phase dictionary (whose `tasks`
key may be absent, `phase.get("tasks", [])`) or a non-dict value, which
every loop in the source skips via `isinstance(phase, dict)`. -/
inductive PhaseEntry where
  | phaseDict (phase : Option String) (tasks : Option (List Task))
  | junk
  deriving DecidableEq, Repr

/-- Tasks iterated for a roadmap entry: `phase.get("tasks", [])` for a dict,
nothing for a non-dict entry. -/
def PhaseEntry.tasksOf : PhaseEntry → List Task
  | .phaseDict _ tasks => tasks.getD []
  | .junk => []

/-- All tasks of a roadmap in document order: phases in declared order,
tasks within a phase in declared order, non-dict entries contributing none. -/
def flattenTasks (r : List PhaseEntry) : List Task :=
  r.flatMap PhaseEntry.tasksOf

/-- The `State` TypedDict of `graph_skeleton.py` (total=False: keys optional).
`run_log` is read everywhere as `state.get("run_log", [])`, so an absent key
is indistinguishable from `[]` and it is embedded as a plain list. -/
structure WFState where
  design_doc : Option String := none
  roadmap : Option (List PhaseEntry) := none
  current_item : Option Task := none
  repo_changes : Option (List String) := none
  run_status : Option String := none
  logs_tail : Option String := none
  approvals : Option (List (String × Bool)) := none
  metadata : Option (List (String × String)) := none
  error : Option String := none
  run_log : List String := []
  deriving DecidableEq, Repr

/-- Externally visible side effects a stage performs, in order. -/
inductive Effect where
  | writeRoadmapJson (r : List PhaseEntry)
  | writeWorkspaceFile (filename : String) (content : String)
  | execCommand (cmd : String)
  | writeRunLog (lines : List String)
  deriving DecidableEq, Repr

/-- True exactly for a durable write of `roadmap.json`. -/
def Effect.isRoadmapWrite : Effect → Bool
  | .writeRoadmapJson _ => true
  | _ => false

/-- Structured JSON output of the planner LLM chain before the
`isinstance` coercion of `graph_skeleton.py` lines 121-126. -/
inductive PlannerLLMOutput where
  | dict (phases : Option (List PhaseEntry)) (roadmapKey : Option (List PhaseEntry))
  | list (l : List PhaseEntry)
  | other
  deriving DecidableEq, Repr

/-- Parsed JSON response of the coder LLM chain:
`response.get("plan", ...)` and `response.get("commands", [])`. -/
structure CoderResponse where
  plan : Option String := none
  commands : Option (List String) := none
  deriving DecidableEq, Repr

/-- Outcome of one `container.exec_run` attempt in `shell_tool.py`:
either a demuxed (exit code, stdout, stderr) result, or a raised
`DockerException`, or any other raised exception. -/
inductive DockerOutcome where
  | success (exitCode : Int) (stdout : Option String) (stderr : Option String)
  | dockerError (msg : String)
  | otherError (msg : String)
  deriving DecidableEq, Repr

/-- The external world as observed by one stage invocation. -/
structure Env where
  /-- Contents of `docs/Design_Document.md`, `none` when the file is absent. -/
  designDocFile : Option String := none
  /-- The persisted `roadmap.json`: `none` when the file does not exist,
  `some none` when it exists but `json.load` raises, `some (some r)` when
  it parses to roadmap `r`. -/
  roadmapFile : Option (Option (List PhaseEntry)) := none
  /-- Directory listing of the workspace. -/
  workspaceFiles : List String := []
  /-- Result of the planner LLM chain; `none` means the chain raised
  (the surrounding try of `planner` catches it). -/
  plannerLLM : Option PlannerLLMOutput := none
  /-- Result of the coder LLM chain; `none` means the chain raised
  (the surrounding try of `coder` catches it). -/
  coderLLM : Option CoderResponse := none
  /-- Whether the coder plan-file `open`/`write` raises
  (the surrounding try of `coder` catches it). -/
  coderWriteFails : Bool := false
  /-- Outcome of `container.exec_run` per (command, container name). -/
  docker : String → String → DockerOutcome := fun _ _ => .success 0 none none

/-- Python `s.replace(" ", "_")` on a single-character pattern:
a per-character map. -/
def pyReplaceSpaceUnderscore (s : String) : String :=
  String.mk (s.data.map (fun c => if c = ' ' then '_' else c))

/-- Python `s.lower()` restricted to ASCII ids: per-character `Char.toLower`. -/
def pyLower (s : String) : String :=
  String.mk (s.data.map Char.toLower)

/-- Expected artifact filename derived from a task id by the planner
reconciliation, `graph_skeleton.py` line 74:
`f-string task[ "id" ].replace(" ", "_").lower() + ".md"`. -/
def plannerTaskFilename (tid : String) : String :=
  pyLower (pyReplaceSpaceUnderscore tid) ++ ".md"

/-- Plan filename written by the coder, `graph_skeleton.py` line 230:
`f-string task_id.replace(" ", "_").lower() + ".md"`. -/
def coderPlanFilename (task_id : String) : String :=
  pyLower (pyReplaceSpaceUnderscore task_id) ++ ".md"

/-- Python `s.endswith(suffix)` as a character-list computation (the
builtin `String.endsWith` is extensionally the same but does not reduce
inside the kernel). -/
def pyEndsWith (s suffix : String) : Bool :=
  suffix.data.isSuffixOf s.data

/-! ### Stage: doc_agent (`graph_skeleton.py` lines 44-56) -/

/-- Embedding of `doc_agent`: load the design document; on
`FileNotFoundError` set the error field instead. -/
def doc_agent (env : Env) (state : WFState) : WFState :=
  let log := state.run_log
  match env.designDocFile with
  | some design_doc =>
      { state with
        design_doc := some design_doc,
        run_log := log ++
          ["[DocAgent] Success: Loaded Design_Document.md (" ++
            toString design_doc.length ++ " chars)"] }
  | none =>
      { state with
        error := some "Design document not found",
        run_log := log ++
          ["[DocAgent] Failure: Design document not found at docs path"] }

/-! ### Stage: architect (`graph_skeleton.py` lines 141-168) -/

/-- Inner loop of `architect`: first task of the list whose
`task.get("status")` equals `"todo"`. -/
def findTodoInTasks : List Task → Option Task
  | [] => none
  | t :: ts => if t.status == some "todo" then some t else findTodoInTasks ts

/-- Outer loop of `architect`: scan roadmap entries in order, skipping
non-dict entries, returning the first todo task and its phase name. -/
def findTodo : List PhaseEntry → Option (Task × String)
  | [] => none
  | .junk :: ps => findTodo ps
  | .phaseDict name tasks :: ps =>
      match findTodoInTasks (tasks.getD []) with
      | some t => some (t, name.getD "N/A")
      | none => findTodo ps

/-- Embedding of `architect`: select the next available task, or `none`. -/
def architect (state : WFState) : WFState :=
  let log := state.run_log
  let roadmap := state.roadmap.getD []
  if roadmap.isEmpty then
    { state with
      current_item := none,
      run_log := log ++ ["[Architect] Info: Roadmap is empty. No tasks to select."] }
  else
    match findTodo roadmap with
    | some (next_task, selected_phase_name) =>
        { state with
          current_item := some next_task,
          run_log := log ++
            ["[Architect] Success: Selected task " ++ next_task.id.getD "N/A" ++
              " from phase " ++ selected_phase_name ++ " for development."] }
    | none =>
        { state with
          current_item := none,
          run_log := log ++ ["[Architect] Info: All tasks on the roadmap are complete."] }

/-! ### Stage: tester (`graph_skeleton.py` lines 269-279) -/

/-- Embedding of `tester`: Python truthiness of `state.get("repo_changes")`
is: present and non-empty. -/
def tester (state : WFState) : WFState :=
  let log := state.run_log
  match state.repo_changes with
  | some (c :: cs) =>
      { state with
        repo_changes := some [],
        run_log := log ++
          ["[Tester] Success: Simulated tests PASSED for changes: " ++
            String.intercalate ", " (c :: cs)] }
  | _ =>
      { state with run_log := log ++ ["[Tester] Info: No file changes detected to test."] }

/-! ### Stage: cicd (`graph_skeleton.py` lines 281-290) -/

/-- Embedding of `cicd`: log-only stage. (In Python the `current_item`
dict is aliased into the roadmap, so after `coder` its `status` reads
`done`; this only affects which log line is chosen here.) -/
def cicd (state : WFState) : WFState :=
  let log := state.run_log
  match state.current_item with
  | some current_item =>
      if current_item.status == some "done" then
        { state with run_log := log ++
            ["[CICD] Success: Simulated build for task " ++
              current_item.title.getD "N/A" ++ "."] }
      else
        { state with run_log := log ++ ["[CICD] Info: No completed task to process."] }
  | none =>
      { state with run_log := log ++ ["[CICD] Info: No completed task to process."] }

/-! ### Stage: log_analyst (`graph_skeleton.py` lines 292-298) -/

/-- Embedding of `log_analyst`: log the error, change nothing else. -/
def log_analyst (state : WFState) : WFState :=
  let log := state.run_log
  { state with run_log := log ++
      ["[LogAnalyst] Info: An error was detected. Analyzing details: " ++
        state.error.getD "Unknown error"] }

/-! ### Router: should_continue (`graph_skeleton.py` lines 301-306) -/

/-- Embedding of the single conditional router `should_continue`:
`Architect` when `state.get("current_item") is not None`, else the
terminal marker. It reads no other field. -/
def should_continue (state : WFState) : String :=
  if state.current_item.isSome then "Architect" else "__end__"


/-! ### Stage: planner (`graph_skeleton.py` lines 58-139) -/

/-- Resume-branch log line, `graph_skeleton.py` line 65. -/
def plannerResumeMsg : String :=
  "[Planner] Info: Existing roadmap.json found. Loading to resume progress."

/-- Reconciliation of one persisted task, `graph_skeleton.py` lines 73-76:
`task[ "id" ]` raises `KeyError` when the id is absent (`none` result);
otherwise the status is forced to done exactly when the derived artifact
filename occurs in the workspace listing. -/
def reconcileTask (workspace_files : List String) (t : Task) : Option Task :=
  match t.id with
  | none => none
  | some tid =>
      let task_filename := plannerTaskFilename tid
      if workspace_files.contains task_filename then
        some { t with status := some "done" }
      else some t

/-- Reconciliation of a task list; `none` when some task raised. -/
def reconcileTasks (workspace_files : List String) : List Task → Option (List Task)
  | [] => some []
  | t :: ts =>
      match reconcileTask workspace_files t with
      | none => none
      | some t' =>
          match reconcileTasks workspace_files ts with
          | none => none
          | some ts' => some (t' :: ts')

/-- Reconciliation over roadmap entries, skipping non-dict entries and
leaving a phase without a tasks key untouched (the source iterates
`phase.get("tasks", [])`, a fresh empty list in that case). -/
def reconcilePhases (workspace_files : List String) :
    List PhaseEntry → Option (List PhaseEntry)
  | [] => some []
  | .junk :: ps =>
      match reconcilePhases workspace_files ps with
      | none => none
      | some ps' => some (.junk :: ps')
  | .phaseDict name none :: ps =>
      match reconcilePhases workspace_files ps with
      | none => none
      | some ps' => some (.phaseDict name none :: ps')
  | .phaseDict name (some l) :: ps =>
      match reconcileTasks workspace_files l with
      | none => none
      | some l' =>
          match reconcilePhases workspace_files ps with
          | none => none
          | some ps' => some (.phaseDict name (some l') :: ps')

/-- The `isinstance` coercion of the planner LLM output,
`graph_skeleton.py` lines 121-126. -/
def extractRoadmap : PlannerLLMOutput → List PhaseEntry
  | .dict phases roadmapKey => phases.getD (roadmapKey.getD [])
  | .list l => l
  | .other => []

/-- Task count in the planner success log line, `graph_skeleton.py` line 131. -/
def numTasks (r : List PhaseEntry) : Nat :=
  (r.map (fun p => (PhaseEntry.tasksOf p).length)).sum

/-- Planner success log line, `graph_skeleton.py` line 132. -/
def plannerSuccessMsg (r : List PhaseEntry) : String :=
  "[Planner] Success: LLM generated a roadmap with " ++ toString r.length ++
    " phases and " ++ toString (numTasks r) ++ " total tasks."

/-- Embedding of `planner`. The resume branch (persisted `roadmap.json`
exists) runs `json.load` and the reconciliation loop outside any try
block, so a decode failure or a task without an id propagates as an
exception (`Except.error`). The generation branch is wrapped in
try/except and is total; it emits a durable write of `roadmap.json`. -/
def planner (env : Env) (state : WFState) :
    Except String (WFState × List Effect) :=
  let log := state.run_log
  match env.roadmapFile with
  | some parseResult =>
      match parseResult with
      | none => .error "json.JSONDecodeError in json.load(roadmap.json)"
      | some roadmap =>
          let workspace_files := env.workspaceFiles.filter (fun f => pyEndsWith f ".md")
          match reconcilePhases workspace_files roadmap with
          | none => .error "KeyError: id missing on a persisted task"
          | some roadmap' =>
              .ok ({ state with
                      roadmap := some roadmap',
                      run_log := log ++ [plannerResumeMsg] }, [])
  | none =>
      match state.design_doc with
      | some _ =>
          match env.plannerLLM with
          | none =>
              .ok ({ state with
                      error := some "LLM roadmap generation failed: LLM chain raised",
                      run_log := log ++
                        ["[Planner] Failure: LLM roadmap generation failed."] }, [])
          | some roadmap_output =>
              let final_roadmap := extractRoadmap roadmap_output
              .ok ({ state with
                      roadmap := some final_roadmap,
                      run_log := log ++ [plannerSuccessMsg final_roadmap] },
                   [Effect.writeRoadmapJson final_roadmap])
      | none =>
          .ok ({ state with
                  error := some "Design document missing for planner",
                  run_log := log ++
                    ["[Planner] Failure: Design document missing from state."] }, [])

/-! ### Shell tool: run_shell_command (`shell_tool.py` lines 8-45) -/

/-- Embedding of `run_shell_command`: demuxed output is decoded and
concatenated; a raised `DockerException` or any other exception is
caught and mapped to exit code 1 with a message. Total by the same
try/except structure as the source. -/
def run_shell_command (env : Env) (command : String)
    (container_name : String := "openhands_runtime") : Int × String :=
  match env.docker command container_name with
  | .success exit_code stdout stderr =>
      (exit_code, stdout.getD "" ++ stderr.getD "")
  | .dockerError e => (1, "An unexpected error occurred: " ++ e)
  | .otherError e => (1, "A general error occurred: " ++ e)

/-! ### Stage: coder (`graph_skeleton.py` lines 170-267) -/

/-- Log line the coder writes for one executed command,
`graph_skeleton.py` line 241. -/
def coderCmdLogMsg (cmd : String) (result : Int × String) : String :=
  "[Coder] Command " ++ cmd ++ ":\n--- Exit Code: " ++ toString result.1 ++
    "\n--- Output:\n" ++ result.2 ++ "\n---"

/-- The state returned by the except-branch of `coder`,
`graph_skeleton.py` lines 265-267; effects already performed inside the
try block persist. -/
def coderExceptState (state : WFState) (item : Task) (log : List String)
    (effs : List Effect) (e : String) : WFState × List Effect :=
  ({ state with
      error := some ("Coder agent failed: " ++ e),
      run_log := log ++
        ["[Coder] Failure: Coder agent failed for task " ++
          item.id.getD "unknown" ++ ". Details: " ++ e] }, effs)

/-- Command-execution loop of `coder`, `graph_skeleton.py` lines 239-245:
either an early error return (`Sum.inl`, first command with non-zero
exit code) or the accumulated log and effects (`Sum.inr`). -/
def runCmds (env : Env) (state : WFState) (log : List String)
    (effs : List Effect) :
    List String → Sum (WFState × List Effect) (List String × List Effect)
  | [] => .inr (log, effs)
  | cmd :: rest =>
      let r := run_shell_command env cmd
      let log := log ++ [coderCmdLogMsg cmd r]
      let effs := effs ++ [Effect.execCommand cmd]
      if r.1 != 0 then
        .inl ({ state with
                 error := some ("Command failed: " ++ cmd),
                 run_log := log ++
                   ["[Coder] Failure: Command " ++ cmd ++
                     " failed. Halting execution for this task."] }, effs)
      else runCmds env state log effs rest

/-- Status update loop over one task list, `graph_skeleton.py` lines 254-258:
mark the first task whose `task.get("id")` equals the current item id
(`None == None` matches) as done; the boolean reports whether one was found. -/
def markTasks (tid : Option String) : List Task → List Task × Bool
  | [] => ([], false)
  | t :: ts =>
      if t.id == tid then ({ t with status := some "done" } :: ts, true)
      else
        let r := markTasks tid ts
        (t :: r.1, r.2)

/-- Status update loop over roadmap entries, `graph_skeleton.py` lines 252-260:
non-dict entries are skipped; the loop stops after the first update. -/
def markPhases (tid : Option String) : List PhaseEntry → List PhaseEntry
  | [] => []
  | .junk :: ps => .junk :: markPhases tid ps
  | .phaseDict name tasks :: ps =>
      let r := markTasks tid (tasks.getD [])
      if r.2 then .phaseDict name (some r.1) :: ps
      else .phaseDict name tasks :: markPhases tid ps

/-- Embedding of `coder`. The whole body after the current-item check sits
inside a try/except that converts every exception into the error field,
so the stage is total; the value also carries the effects performed. -/
def coder (env : Env) (state : WFState) : WFState × List Effect :=
  let log := state.run_log
  match state.current_item with
  | none =>
      ({ state with run_log := log ++ ["[Coder] Info: No current task to execute."] }, [])
  | some current_item =>
      match current_item.title with
      | none => coderExceptState state current_item log [] "KeyError: title"
      | some title =>
          match state.design_doc with
          | none => coderExceptState state current_item log [] "KeyError: design_doc"
          | some _ =>
              match env.coderLLM with
              | none => coderExceptState state current_item log [] "LLM chain raised"
              | some response =>
                  let implementation_plan := response.plan.getD "No plan generated."
                  let commands_to_execute := response.commands.getD []
                  let task_id := current_item.id.getD "unnamed_task"
                  let filename := coderPlanFilename task_id
                  let filepath := "/workspaces/agentic-dev-platform/workspace/" ++ filename
                  if env.coderWriteFails then
                    coderExceptState state current_item log [] "file write raised"
                  else
                    let content := "# Implementation Plan for: " ++ title ++ "\n\n" ++
                      implementation_plan
                    let effs := [Effect.writeWorkspaceFile filename content]
                    let log := log ++
                      ["[Coder] Success: Generated and wrote implementation plan to " ++
                        filepath]
                    let step :=
                      if commands_to_execute.isEmpty then
                        .inr (log ++
                          ["[Coder] Info: No commands were generated by the LLM for this task."],
                          effs)
                      else
                        runCmds env state
                          (log ++ ["[Coder] Info: Executing " ++
                            toString commands_to_execute.length ++ " commands..."])
                          effs commands_to_execute
                    match step with
                    | .inl earlyReturn => earlyReturn
                    | .inr (log, effs) =>
                        match state.roadmap with
                        | none =>
                            coderExceptState state current_item log effs "KeyError: roadmap"
                        | some roadmap =>
                            let updated_roadmap := markPhases current_item.id roadmap
                            ({ state with
                                repo_changes := some ["EXECUTED_PLAN: " ++ filepath],
                                roadmap := some updated_roadmap,
                                run_log := log ++
                                  ["[Coder] Info: Marked task " ++ task_id ++
                                    " as done in the roadmap."] }, effs)

/-! ### Graph definition (`graph_skeleton.py` lines 308-326) -/

/-- The unconditional edges added by `builder.add_edge`. -/
def add_edges : List (String × String) :=
  [("DocAgent", "Planner"), ("Planner", "Architect"), ("Architect", "Coder"),
   ("Coder", "Tester"), ("Tester", "CICD"), ("LogAnalyst", "Coder")]

/-- The entry stage, `builder.set_entry_point`. -/
def entry_point : String := "DocAgent"

/-- Connection string of the LangGraph checkpointer,
`SqliteSaver.from_conn_string(":memory:")`: an in-memory database. -/
def checkpointer_conn_string : String := ":memory:"

/-- Successor of a stage for a given post-stage state: the single
conditional edge (`builder.add_conditional_edges("CICD", should_continue)`)
consults the router; every other stage has its fixed `add_edges` successor. -/
def nextNode (n : String) (state : WFState) : Option String :=
  if n = "CICD" then some (should_continue state)
  else List.lookup n add_edges

/-- Invoke the stage named `n`. `none` means the stage raised an exception
that escaped to the engine (only `planner` can). -/
def runStage (env : Env) (n : String) (state : WFState) :
    Option (WFState × List Effect) :=
  if n = "DocAgent" then some (doc_agent env state, [])
  else if n = "Planner" then (planner env state).toOption
  else if n = "Architect" then some (architect state, [])
  else if n = "Coder" then some (coder env state)
  else if n = "Tester" then some (tester state, [])
  else if n = "CICD" then some (cicd state, [])
  else if n = "LogAnalyst" then some (log_analyst state, [])
  else none

/-- One engine step: run the current stage under some environment, then
route. A configuration is (stage name to run next, current state); the
terminal marker `__end__` appears as a configuration with no outgoing step. -/
def EngineStep (p q : String × WFState) : Prop :=
  ∃ (env : Env) (effs : List Effect),
    runStage env p.1 p.2 = some (q.2, effs) ∧ nextNode p.1 q.2 = some q.1

/-- The initial state of the `__main__` block, `graph_skeleton.py` line 342. -/
def initial_state : WFState :=
  { run_log := [], metadata := some [("project", "agentic-dev-platform")] }

/-- Configurations reachable by the engine from the entry stage on the
initial state of the `__main__` block. -/
def Reachable (c : String × WFState) : Prop :=
  Relation.ReflTransGen EngineStep (entry_point, initial_state) c

/-- The claimed invariant on `current_item`: when present it references
(by id) a task that exists inside the roadmap with status todo or
in_progress. Boolean form so that concrete states decide it. -/
def currentItemLiveB (state : WFState) : Bool :=
  match state.current_item with
  | none => true
  | some t =>
      (flattenTasks (state.roadmap.getD [])).any fun t' =>
        t'.id == t.id && (t'.status == some "todo" || t'.status == some "in_progress")

/-- Propositional form of the claimed `current_item` invariant. -/
def CurrentItemLive (state : WFState) : Prop := currentItemLiveB state = true

/-- Every task of the roadmap (in document order) has status done. -/
def allDone (r : List PhaseEntry) : Bool :=
  (flattenTasks r).all fun t => t.status == some "done"

/-! ### Driver loop and shutdown handling (`graph_skeleton.py` lines 330-370) -/

/-- The `signal_handler` body, lines 335-337: it only sets the shutdown
flag; it does not touch the workflow state or abort the running stage. -/
def signal_handler (shutdown_flag : Bool) : Bool :=
  let _ := shutdown_flag
  true

/-- The streaming driver loop, lines 349-353: process events one by one,
remembering the last one, and break when the shutdown flag is observed
after an event completes. `flagAt i` tells whether the flag had been set
by the time event `i` (0-based) finished; the loop never inspects the
flag in the middle of an event. Returns the final `final_state` event,
`none` when no event was processed (`final_state` stays `{}`). -/
def driverLoop (flagAt : Nat → Bool) : List (String × WFState) → Option (String × WFState)
  | [] => none
  | e :: rest =>
      if flagAt 0 then some e
      else
        match driverLoop (fun n => flagAt (n + 1)) rest with
        | none => some e
        | some e' => some e'

/-- Index of the event at which the driver loop stops: the first index
whose flag is set, else the last index. -/
def stopIndex (flagAt : Nat → Bool) : List (String × WFState) → Nat
  | [] => 0
  | _ :: rest =>
      if flagAt 0 then 0
      else
        match rest with
        | [] => 0
        | _ => stopIndex (fun n => flagAt (n + 1)) rest + 1

/-- Roadmap part of the final save, lines 360-364: `roadmap.json` is
rewritten only when the final state holds a Python-truthy (present and
non-empty) roadmap. -/
def roadmapSaveEffects (state : WFState) : List Effect :=
  match state.roadmap with
  | some (p :: ps) => [Effect.writeRoadmapJson (p :: ps)]
  | _ => []

/-- The finally-block of the `__main__` loop, lines 354-370: extract the
single node state of the last event and persist. When no event was
processed, `list(final_state.keys())[0]` raises `IndexError` and no file
is written (`none`). -/
def finalSave : Option (String × WFState) → Option (List Effect)
  | none => none
  | some (_, state) =>
      some (roadmapSaveEffects state ++ [Effect.writeRunLog state.run_log])

/-! ### Spec-side definitions used by refinement statements -/

/-- Spec-side description of reconciling one persisted task: force the
status to done exactly when the artifact file derived from the id is
present; otherwise keep the persisted status. Stated from the spec
wording, to be compared with the source-shaped `reconcileTask`. -/
def reconcileTaskSpec (files : List String) (t : Task) : Task :=
  if files.contains (plannerTaskFilename (t.id.getD "")) then
    { t with status := some "done" }
  else t

/-- Spec-side reconciliation over the whole roadmap: a per-task map that
touches nothing but task statuses. -/
def reconcileSpecPhases (files : List String) (r : List PhaseEntry) : List PhaseEntry :=
  r.map fun p =>
    match p with
    | .junk => .junk
    | .phaseDict name none => .phaseDict name none
    | .phaseDict name (some l) => .phaseDict name (some (l.map (reconcileTaskSpec files)))

/-- Every task the reconciliation loop visits carries an id key. -/
def tasksHaveIds (r : List PhaseEntry) : Bool :=
  (flattenTasks r).all fun t => t.id.isSome

/-! ### Fixtures (concrete inputs used by counterexamples and witnesses) -/

/-- Concrete task t1, done. -/
def exT1 : Task :=
  { id := some "t1", title := some "Task 1", kind := some "dev", status := some "done" }

/-- Concrete task t2, todo. -/
def exT2 : Task :=
  { id := some "t2", title := some "Task 2", kind := some "dev", status := some "todo" }

/-- Concrete task t3, todo. -/
def exT3 : Task :=
  { id := some "t3", title := some "Task 3", kind := some "dev", status := some "todo" }

/-- The spec example roadmap with phases A:[t1 done, t2 todo] and B:[t3 todo]. -/
def exampleABRoadmap : List PhaseEntry :=
  [.phaseDict (some "A") (some [exT1, exT2]), .phaseDict (some "B") (some [exT3])]

/-- State holding the example roadmap. -/
def exampleABState : WFState := { roadmap := some exampleABRoadmap }

/-- A malformed roadmap: a non-dict entry and a phase without a tasks key. -/
def malformedState : WFState :=
  { roadmap := some [.junk, .phaseDict (some "P") none] }

/-- A state with an error present and no current task. -/
def errState : WFState := { error := some "boom" }

/-- A single persisted task, todo, with id p0-t1. -/
def rmTask1 : Task :=
  { id := some "p0-t1", title := some "Task One", kind := some "dev",
    status := some "todo" }

/-- A persisted roadmap holding only `rmTask1`. -/
def rm0 : List PhaseEntry := [.phaseDict (some "Phase 1") (some [rmTask1])]

/-- Environment for a resumed run: design document present, persisted
roadmap `rm0`, empty workspace, coder LLM answering with a plan and no
commands, docker always succeeding. -/
def envA : Env :=
  { designDocFile := some "THE DESIGN DOC",
    roadmapFile := some (some rm0),
    workspaceFiles := [],
    plannerLLM := none,
    coderLLM := some { plan := some "The plan.", commands := some [] },
    coderWriteFails := false,
    docker := fun _ _ => .success 0 none none }

/-- State after the DocAgent stage of the concrete run under `envA`. -/
def c3St1 : WFState := doc_agent envA initial_state

/-- Planner result of the concrete run under `envA`. -/
def c3Pair2 : WFState × List Effect :=
  ((planner envA c3St1).toOption).getD (c3St1, [])

/-- State after the Planner stage of the concrete run under `envA`. -/
def c3St2 : WFState := c3Pair2.1

/-- State after the Architect stage of the concrete run under `envA`. -/
def c3St3 : WFState := architect c3St2

/-- Coder result of the concrete run under `envA`. -/
def c3Pair4 : WFState × List Effect := coder envA c3St3

/-- State after the Coder stage of the concrete run under `envA`: the
selected task is now done inside the roadmap while `current_item` is
still set. -/
def c3Bad : WFState := c3Pair4.1

/-- Environment whose persisted roadmap.json exists but fails to parse. -/
def envBadJson : Env := { roadmapFile := some none }

/-- Environment with no external resources at all. -/
def envEmpty : Env := {}

/-- A state whose roadmap tasks are all done. -/
def allDoneState : WFState :=
  { roadmap := some [.phaseDict (some "A") (some [exT1])] }

/-- A persisted roadmap holding `rmTask1` as todo, for the resume witness. -/
def rmPersist : List PhaseEntry := [.phaseDict (some "P") (some [rmTask1])]

/-- Resume environment: persisted roadmap present, and the artifact for
p0-t1 already exists in the workspace. -/
def envResume : Env :=
  { roadmapFile := some (some rmPersist),
    workspaceFiles := ["p0-t1.md", "notes.txt"] }

/-- Event stream of a run interrupted right after the DocAgent stage. -/
def interruptedEvents : List (String × WFState) := [("DocAgent", c3St1)]

/-- Environment whose docker daemon raises a DockerException. -/
def envDockerFail : Env := { docker := fun _ _ => .dockerError "no daemon" }

/-- Environment for a fresh generation run: no persisted roadmap and a
planner LLM returning the roadmap list `rm0`. -/
def envGen : Env := { plannerLLM := some (.list rm0) }

/-- A state holding a design document, for the generation run. -/
def stGen : WFState := { design_doc := some "THE DESIGN DOC" }

/-! ### Helper lemmas -/

/-- The inner loop of the architect is exactly `List.find?` of the
todo predicate. -/
theorem findTodoInTasks_eq_find? (ts : List Task) :
    findTodoInTasks ts = ts.find? (fun t => t.status == some "todo") := by
  induction ts with
  | nil => rfl
  | cons t ts ih =>
      by_cases h : (t.status == some "todo") = true
      · simp [findTodoInTasks, h]
      · simp [findTodoInTasks, h, ih]

/-- Flattened tasks of a roadmap, one step. -/
theorem flattenTasks_cons (p : PhaseEntry) (ps : List PhaseEntry) :
    flattenTasks (p :: ps) = p.tasksOf ++ flattenTasks ps := by
  simp [flattenTasks]

/-- The two-level architect scan equals `List.find?` over the flattened
roadmap in document order. -/
theorem findTodo_map_fst (r : List PhaseEntry) :
    (findTodo r).map Prod.fst =
      (flattenTasks r).find? (fun t => t.status == some "todo") := by
  induction r with
  | nil => rfl
  | cons p ps ih =>
      cases p with
      | junk =>
          rw [flattenTasks_cons]
          simp only [findTodo, PhaseEntry.tasksOf, List.nil_append]
          exact ih
      | phaseDict name tasks =>
          rw [flattenTasks_cons, List.find?_append]
          simp only [findTodo, PhaseEntry.tasksOf]
          rw [← findTodoInTasks_eq_find?]
          cases h : findTodoInTasks (tasks.getD []) with
          | none => simpa [h] using ih
          | some t => simp [h]

/-- A successful association-list lookup yields one of the stored values. -/
theorem lookup_mem_values {α β : Type} [BEq α] (k : α) (l : List (α × β)) (b : β)
    (h : List.lookup k l = some b) : b ∈ l.map Prod.snd := by
  induction l with
  | nil => simp [List.lookup] at h
  | cons p ps ih =>
      obtain ⟨k', v⟩ := p
      rw [List.lookup] at h
      cases hpk : k == k' with
      | true =>
          rw [hpk] at h
          simp only [Option.some.injEq] at h
          simp [h]
      | false =>
          rw [hpk] at h
          simp only [List.map_cons, List.mem_cons]
          exact Or.inr (ih h)

/-- The architect returns exactly the first todo task of the flattened
roadmap as `current_item`. -/
theorem architect_current_item (state : WFState) :
    (architect state).current_item =
      (flattenTasks (state.roadmap.getD [])).find?
        (fun t => t.status == some "todo") := by
  unfold architect
  by_cases h : (state.roadmap.getD []).isEmpty = true
  · have h0 : state.roadmap.getD [] = [] := by
      cases hr : state.roadmap.getD [] with
      | nil => rfl
      | cons a l => rw [hr] at h; simp [List.isEmpty] at h
    simp [h, h0, flattenTasks]
  · have heq := findTodo_map_fst (state.roadmap.getD [])
    cases hf : findTodo (state.roadmap.getD []) with
    | none => rw [hf] at heq; simp [h, hf, ← heq]
    | some pr =>
        obtain ⟨t, nm⟩ := pr
        rw [hf] at heq
        simp [h, hf, ← heq]

/-- The architect never modifies the roadmap. -/
theorem architect_roadmap_unchanged (state : WFState) :
    (architect state).roadmap = state.roadmap := by
  unfold architect
  by_cases h : (state.roadmap.getD []).isEmpty = true
  · simp [h]
  · cases hf : findTodo (state.roadmap.getD []) with
    | none => simp [h, hf]
    | some pr =>
        obtain ⟨t, nm⟩ := pr
        simp [h, hf]

/-! ### C1: the conditional router -/

/-- C1 counterexample: at a state where an error is present (and no
current task remains), the single conditional router returns the
terminal marker, not the recovery stage LogAnalyst; so the claimed
rule (error implies recovery) is false of `should_continue`. -/
theorem c1_router_counterexample :
    errState.error = some "boom" ∧
    should_continue errState = "__end__" ∧
    (should_continue errState == "LogAnalyst") = false := by
  refine ⟨rfl, rfl, by decide⟩

/-- C1 (amended): the router ignores the error field entirely: its output
is determined by `current_item` alone (Architect when present, terminal
marker otherwise); the post-execution edge Coder-to-Tester is
unconditional; and no edge of the graph ever routes into LogAnalyst. -/
theorem c1_router_amended :
    (∀ state : WFState,
        should_continue state =
          if state.current_item.isSome then "Architect" else "__end__") ∧
    (∀ (state : WFState) (e : Option String),
        should_continue { state with error := e } = should_continue state) ∧
    List.lookup "Coder" add_edges = some "Tester" ∧
    (∀ (n : String) (state : WFState), nextNode n state ≠ some "LogAnalyst") := by
  refine ⟨fun state => rfl, fun state e => rfl, rfl, ?_⟩
  intro n state h
  unfold nextNode at h
  by_cases hn : n = "CICD"
  · rw [if_pos hn] at h
    unfold should_continue at h
    by_cases hc : state.current_item.isSome = true
    · rw [if_pos hc] at h
      exact absurd (Option.some.inj h) (by decide)
    · rw [if_neg hc] at h
      exact absurd (Option.some.inj h) (by decide)
  · rw [if_neg hn] at h
    have hmem := lookup_mem_values n add_edges _ h
    revert hmem
    decide

/-- C1 witness: the amended router facts evaluated at the concrete
error state. -/
theorem c1_router_amended_witness :
    should_continue errState = "__end__" :=
  (c1_router_amended.1 errState).trans rfl

/-! ### C2: deterministic task selection -/

/-- C2: the architect sets `current_item` to the first task in document
order (phase index, then task index) whose status is todo, and to none
when no such task exists; a malformed roadmap yields none; selection
does not change the roadmap; and on phases A:[t1 done, t2 todo],
B:[t3 todo] it selects t2. -/
theorem c2_task_selection :
    (∀ state : WFState,
        (architect state).current_item =
          (flattenTasks (state.roadmap.getD [])).find?
            (fun t => t.status == some "todo") ∧
        (architect state).roadmap = state.roadmap) ∧
    (architect exampleABState).current_item = some exT2 ∧
    (architect malformedState).current_item = none := by
  refine ⟨fun state => ⟨architect_current_item state, architect_roadmap_unchanged state⟩,
    ?_, ?_⟩
  · rfl
  · rfl

/-! ### C8: artifact filename mapping -/

/-- C8 counterexample: the mapping from task id to artifact filename is
not collision-free: the distinct ids T1 and t1 derive the same filename. -/
theorem c8_filename_counterexample :
    plannerTaskFilename "T1" = plannerTaskFilename "t1" ∧
    (("T1" : String) == "t1") = false := by
  refine ⟨by decide, by decide⟩

/-- Per-character-fixed maps leave a list unchanged. -/
theorem map_id_of_fixed {α : Type} (f : α → α) :
    ∀ l : List α, (∀ c ∈ l, f c = c) → l.map f = l := by
  intro l h
  calc l.map f = l.map id := List.map_congr_left h
  _ = l := List.map_id l

/-- On an id that is already lowercase and space-free, the filename
mapping appends `.md` and nothing else. -/
theorem plannerTaskFilename_normalized (tid : String)
    (h : ∀ c ∈ tid.data, c ≠ ' ' ∧ Char.toLower c = c) :
    plannerTaskFilename tid = tid ++ ".md" := by
  unfold plannerTaskFilename pyLower pyReplaceSpaceUnderscore
  rw [map_id_of_fixed _ tid.data (fun c hc => by simp [(h c hc).1])]
  rw [map_id_of_fixed _ tid.data (fun c hc => (h c hc).2)]

/-- C8 (amended): the task-id-to-filename mapping (spaces to underscores,
lowercased, `.md` appended) is deterministic, identical at its two use
sites (coder write and planner reconciliation), and injective on ids
that are already lowercase and space-free; but it is not collision-free
in general (distinct ids differing in letter case collide). -/
theorem c8_filename_mapping_amended :
    (∀ tid : String, coderPlanFilename tid = plannerTaskFilename tid) ∧
    plannerTaskFilename "Setup Docker" = "setup_docker.md" ∧
    (∀ t1 t2 : String,
        (∀ c ∈ t1.data, c ≠ ' ' ∧ Char.toLower c = c) →
        (∀ c ∈ t2.data, c ≠ ' ' ∧ Char.toLower c = c) →
        plannerTaskFilename t1 = plannerTaskFilename t2 → t1 = t2) := by
  refine ⟨fun tid => rfl, by decide, ?_⟩
  intro t1 t2 h1 h2 heq
  rw [plannerTaskFilename_normalized t1 h1, plannerTaskFilename_normalized t2 h2] at heq
  have hdata := congrArg String.data heq
  rw [String.data_append, String.data_append] at hdata
  exact String.ext (List.append_cancel_right hdata)

/-- C8 witness: the amended injectivity applied at the concrete
lowercase space-free id p0-t1, with both side conditions discharged
by evaluation. -/
theorem c8_filename_mapping_amended_witness :
    plannerTaskFilename "p0-t1" = "p0-t1.md" ∧ ("p0-t1" : String) = "p0-t1" :=
  ⟨by decide, c8_filename_mapping_amended.2.2 "p0-t1" "p0-t1" (by decide) (by decide) rfl⟩

/-! ### Reconciliation lemmas -/

/-- On a task with an id, the source reconciliation step computes the
spec-side reconciliation. -/
theorem reconcileTask_spec_of_id (files : List String) (t : Task)
    (h : t.id.isSome = true) :
    reconcileTask files t = some (reconcileTaskSpec files t) := by
  unfold reconcileTask reconcileTaskSpec
  cases ht : t.id with
  | none => rw [ht] at h; simp at h
  | some tid =>
      simp only [ht, Option.getD_some]
      split <;> rfl

/-- On a task list whose tasks all have ids, the source reconciliation
loop computes the per-task spec map. -/
theorem reconcileTasks_spec_of_ids (files : List String) (ts : List Task)
    (h : ts.all (fun t => t.id.isSome) = true) :
    reconcileTasks files ts = some (ts.map (reconcileTaskSpec files)) := by
  induction ts with
  | nil => rfl
  | cons t ts ih =>
      rw [List.all_cons] at h
      obtain ⟨h1, h2⟩ := Bool.and_eq_true_iff.mp h
      simp only [reconcileTasks]
      rw [reconcileTask_spec_of_id files t h1, ih h2]
      rfl

/-- On a roadmap whose tasks all have ids, the source reconciliation
computes the spec-side reconciliation. -/
theorem reconcilePhases_spec_of_ids (files : List String) (r : List PhaseEntry)
    (h : tasksHaveIds r = true) :
    reconcilePhases files r = some (reconcileSpecPhases files r) := by
  induction r with
  | nil => rfl
  | cons p ps ih =>
      have h' : ((p.tasksOf).all (fun t => t.id.isSome) &&
          (flattenTasks ps).all (fun t => t.id.isSome)) = true := by
        have : tasksHaveIds (p :: ps) = true := h
        unfold tasksHaveIds at this
        rw [flattenTasks_cons, List.all_append] at this
        exact this
      obtain ⟨hp, hps⟩ := Bool.and_eq_true_iff.mp h'
      cases p with
      | junk =>
          simp only [reconcilePhases]
          rw [ih hps]
          rfl
      | phaseDict name tasks =>
          cases tasks with
          | none =>
              simp only [reconcilePhases]
              rw [ih hps]
              rfl
          | some l =>
              simp only [PhaseEntry.tasksOf, Option.getD_some] at hp
              simp only [reconcilePhases]
              rw [reconcileTasks_spec_of_ids files l hp, ih hps]
              rfl

/-- A task list containing a task without an id makes the source
reconciliation loop raise. -/
theorem reconcileTasks_none_of_missing_id (files : List String) (ts : List Task)
    (h : ts.all (fun t => t.id.isSome) = false) :
    reconcileTasks files ts = none := by
  induction ts with
  | nil => simp at h
  | cons t ts ih =>
      cases hid : t.id with
      | none => simp [reconcileTasks, reconcileTask, hid]
      | some tid =>
          rw [List.all_cons] at h
          simp only [hid, Option.isSome_some, Bool.true_and] at h
          simp only [reconcileTasks, reconcileTask, hid]
          split <;> simp [ih h]

/-- A roadmap containing a visited task without an id makes the source
reconciliation raise. -/
theorem reconcilePhases_none_of_missing_id (files : List String)
    (r : List PhaseEntry) (h : tasksHaveIds r = false) :
    reconcilePhases files r = none := by
  induction r with
  | nil => simp [tasksHaveIds, flattenTasks] at h
  | cons p ps ih =>
      have h' : ((p.tasksOf).all (fun t => t.id.isSome) &&
          (flattenTasks ps).all (fun t => t.id.isSome)) = false := by
        have : tasksHaveIds (p :: ps) = false := h
        unfold tasksHaveIds at this
        rw [flattenTasks_cons, List.all_append] at this
        exact this
      cases p with
      | junk =>
          simp only [PhaseEntry.tasksOf, List.all_nil, Bool.true_and] at h'
          simp [reconcilePhases, ih (show tasksHaveIds ps = false from h')]
      | phaseDict name tasks =>
          cases tasks with
          | none =>
              simp only [PhaseEntry.tasksOf, Option.getD_none, List.all_nil,
                Bool.true_and] at h'
              simp [reconcilePhases, ih (show tasksHaveIds ps = false from h')]
          | some l =>
              simp only [PhaseEntry.tasksOf, Option.getD_some] at h'
              rcases Bool.and_eq_false_iff.mp h' with h1 | h2
              · simp [reconcilePhases, reconcileTasks_none_of_missing_id files l h1]
              · cases hrt : reconcileTasks files l with
                | none => simp [reconcilePhases, hrt]
                | some l' =>
                    simp [reconcilePhases, hrt,
                      ih (show tasksHaveIds ps = false from h2)]

/-! ### C5: resume and reconciliation -/

/-- C5: when a persisted roadmap exists (and parses, with ids on its
tasks), the planner loads it instead of regenerating: the resulting
state carries the persisted roadmap reconciled task-by-task — status
forced to done exactly when the artifact file derived from the task id
is present among the markdown workspace files, the persisted status kept
otherwise — and no roadmap generation or write occurs. -/
theorem c5_resume_reconciliation (env : Env) (state : WFState) (r : List PhaseEntry)
    (hfile : env.roadmapFile = some (some r)) (hids : tasksHaveIds r = true) :
    planner env state = .ok
      ({ state with
          roadmap := some (reconcileSpecPhases
            (env.workspaceFiles.filter (fun f => pyEndsWith f ".md")) r),
          run_log := state.run_log ++ [plannerResumeMsg] }, []) := by
  unfold planner
  simp only [hfile]
  rw [reconcilePhases_spec_of_ids
    (env.workspaceFiles.filter (fun f => pyEndsWith f ".md")) r hids]

/-- C5 witness: resuming with a task persisted as todo whose artifact
file exists loads it as done. -/
theorem c5_resume_reconciliation_witness :
    (planner envResume initial_state).toOption.map (fun p => p.1.roadmap) =
      some (some [PhaseEntry.phaseDict (some "P")
        (some [{ rmTask1 with status := some "done" }])]) := by
  rw [c5_resume_reconciliation envResume initial_state rmPersist rfl (by decide)]
  decide

/-! ### C4: stage totality -/

/-- C4 counterexample: the Planner stage is not total: with a persisted
roadmap.json that fails to parse, the `json.load` exception escapes the
stage (no surrounding try), so a stage failure is not reported through
the error field. -/
theorem c4_totality_counterexample :
    planner envBadJson initial_state =
      .error "json.JSONDecodeError in json.load(roadmap.json)" := rfl

/-- C4 (amended): all stage functions except the Planner are total on
every state of the model and report failures through the error field;
the Planner alone can raise, and it does so exactly when a persisted
roadmap.json exists and is malformed — it fails to parse, or some
visited task lacks an id. -/
theorem c4_stage_totality_amended (env : Env) (state : WFState) :
    ((∃ e, planner env state = .error e) ↔
        env.roadmapFile = some none ∨
          ∃ r, env.roadmapFile = some (some r) ∧ tasksHaveIds r = false) ∧
    (env.designDocFile = none →
        (doc_agent env state).error = some "Design document not found") ∧
    (env.roadmapFile = none → state.design_doc = none →
        planner env state = .ok
          ({ state with
              error := some "Design document missing for planner",
              run_log := state.run_log ++
                ["[Planner] Failure: Design document missing from state."] }, [])) ∧
    (env.roadmapFile = none → env.plannerLLM = none →
        ∀ d, state.design_doc = some d →
          planner env state = .ok
            ({ state with
                error := some "LLM roadmap generation failed: LLM chain raised",
                run_log := state.run_log ++
                  ["[Planner] Failure: LLM roadmap generation failed."] }, [])) := by
  refine ⟨⟨?_, ?_⟩, ?_, ?_, ?_⟩
  · rintro ⟨e, he⟩
    unfold planner at he
    cases hrf : env.roadmapFile with
    | none =>
        simp only [hrf] at he
        cases hdd : state.design_doc with
        | none => simp only [hdd] at he; exact Except.noConfusion he
        | some d =>
            simp only [hdd] at he
            cases hllm : env.plannerLLM with
            | none => simp only [hllm] at he; exact Except.noConfusion he
            | some out => simp only [hllm] at he; exact Except.noConfusion he
    | some parseResult =>
        cases parseResult with
        | none => exact Or.inl rfl
        | some r =>
            simp only [hrf] at he
            cases hrec : reconcilePhases
                (env.workspaceFiles.filter (fun f => pyEndsWith f ".md")) r with
            | none =>
                have hni : tasksHaveIds r ≠ true := by
                  intro htrue
                  rw [reconcilePhases_spec_of_ids _ r htrue] at hrec
                  exact Option.noConfusion hrec
                exact Or.inr ⟨r, rfl, Bool.eq_false_iff.mpr hni⟩
            | some r' => simp only [hrec] at he; exact Except.noConfusion he
  · rintro (hrf | ⟨r, hrf, hids⟩)
    · exact ⟨"json.JSONDecodeError in json.load(roadmap.json)",
        by unfold planner; simp only [hrf]⟩
    · refine ⟨"KeyError: id missing on a persisted task", ?_⟩
      unfold planner
      simp only [hrf]
      rw [reconcilePhases_none_of_missing_id
        (env.workspaceFiles.filter (fun f => pyEndsWith f ".md")) r hids]
  · intro h
    simp [doc_agent, h]
  · intro h1 h2
    unfold planner
    simp only [h1, h2]
  · intro h1 h2 d h3
    unfold planner
    simp only [h1, h2, h3]

/-- C4 witness: the amended totality facts applied at the environment
with no design document. -/
theorem c4_stage_totality_amended_witness :
    (doc_agent envEmpty initial_state).error = some "Design document not found" :=
  (c4_stage_totality_amended envEmpty initial_state).2.1 rfl

/-! ### C6: persistence after mutations -/

/-- C6 counterexample: the Coder mutates a task status (the selected todo
task becomes done in the roadmap) yet performs no durable write of the
roadmap before the engine proceeds; its effect list contains no
roadmap.json write. -/
theorem c6_persistence_counterexample :
    (c3Pair4.1.roadmap == c3St3.roadmap) = false ∧
    (flattenTasks (c3Pair4.1.roadmap.getD [])).all
      (fun t => t.status == some "done") = true ∧
    c3Pair4.2.filter Effect.isRoadmapWrite = [] := by
  refine ⟨by decide, by decide, by decide⟩

/-- Command loop: an early error return carries only command-execution
effects on top of the incoming ones. -/
theorem runCmds_inl_no_rw (env : Env) (state : WFState) :
    ∀ (cmds log : List String) (effs : List Effect) (p : WFState × List Effect),
      effs.all (fun e => !e.isRoadmapWrite) = true →
      runCmds env state log effs cmds = .inl p →
      p.2.all (fun e => !e.isRoadmapWrite) = true := by
  intro cmds
  induction cmds with
  | nil =>
      intro log effs p h heq
      exact Sum.noConfusion heq
  | cons cmd rest ih =>
      intro log effs p h heq
      simp only [runCmds] at heq
      split at heq
      · cases heq
        simp only [List.all_append, h]
        rfl
      · exact ih _ _ _ (by simp only [List.all_append, h]; rfl) heq

/-- Command loop: a completed run carries only command-execution effects
on top of the incoming ones. -/
theorem runCmds_inr_no_rw (env : Env) (state : WFState) :
    ∀ (cmds log : List String) (effs : List Effect) (q : List String × List Effect),
      effs.all (fun e => !e.isRoadmapWrite) = true →
      runCmds env state log effs cmds = .inr q →
      q.2.all (fun e => !e.isRoadmapWrite) = true := by
  intro cmds
  induction cmds with
  | nil =>
      intro log effs q h heq
      cases heq
      exact h
  | cons cmd rest ih =>
      intro log effs q h heq
      simp only [runCmds] at heq
      split at heq
      · exact Sum.noConfusion heq
      · exact ih _ _ _ (by simp only [List.all_append, h]; rfl) heq

/-- The Coder never emits a durable roadmap write, on any input. -/
theorem coder_no_roadmap_write (env : Env) (state : WFState) :
    (coder env state).2.all (fun e => !e.isRoadmapWrite) = true := by
  cases hci : state.current_item with
  | none => simp [coder, hci]
  | some item =>
      cases hti : item.title with
      | none => simp [coder, hci, hti, coderExceptState]
      | some title =>
          cases hdd : state.design_doc with
          | none => simp [coder, hci, hti, hdd, coderExceptState]
          | some d =>
              cases hllm : env.coderLLM with
              | none => simp [coder, hci, hti, hdd, hllm, coderExceptState]
              | some resp =>
                  cases hw : env.coderWriteFails with
                  | true => simp [coder, hci, hti, hdd, hllm, hw, coderExceptState]
                  | false =>
                      simp only [coder, hci, hti, hdd, hllm, hw, Bool.false_eq_true,
                        if_false]
                      split
                      · next p heq =>
                          split at heq
                          · exact Sum.noConfusion heq
                          · exact runCmds_inl_no_rw env state _ _ _ _ (by rfl) heq
                      · next lg effs heq =>
                          have hq : effs.all (fun e => !e.isRoadmapWrite) = true := by
                            split at heq
                            · cases heq; rfl
                            · exact runCmds_inr_no_rw env state _ _ _ _ (by rfl) heq
                          cases hrm : state.roadmap with
                          | none => simpa [coderExceptState] using hq
                          | some roadmap => simpa using hq

/-- C6 (amended): the Planner persists the roadmap to roadmap.json right
after generating it, but the Coder persists nothing at the stage
boundary after mutating a task status: the engine checkpointer is an
in-memory SQLite store and the roadmap file is only rewritten by the
exit handler, so no durable write follows the mutation before the next
stage runs. -/
theorem c6_persistence_amended :
    (∀ (env : Env) (state : WFState) (out : PlannerLLMOutput) (d : String),
        env.roadmapFile = none → env.plannerLLM = some out →
        state.design_doc = some d →
        (planner env state).map Prod.snd =
          .ok [Effect.writeRoadmapJson (extractRoadmap out)]) ∧
    (∀ (env : Env) (state : WFState),
        (coder env state).2.all (fun e => !e.isRoadmapWrite) = true) ∧
    checkpointer_conn_string = ":memory:" := by
  refine ⟨?_, fun env state => coder_no_roadmap_write env state, rfl⟩
  intro env state out d h1 h2 h3
  unfold planner
  simp only [h1, h2, h3]
  rfl

/-- C6 witness: the amended persistence facts applied at the concrete
generation run and at the concrete coder run. -/
theorem c6_persistence_amended_witness :
    (planner envGen stGen).map Prod.snd = .ok [Effect.writeRoadmapJson rm0] ∧
    (coder envA c3St3).2.all (fun e => !e.isRoadmapWrite) = true :=
  ⟨(c6_persistence_amended.1 envGen stGen (.list rm0) "THE DESIGN DOC"
      rfl rfl rfl).trans rfl,
   c6_persistence_amended.2.1 envA c3St3⟩

/-! ### C3: the current_item invariant -/

/-- C3 counterexample: a state reachable in four engine steps (DocAgent,
Planner resuming a one-task roadmap, Architect selecting it, Coder
completing it) has `current_item` still set while the only task with its
id in the roadmap is already done, so `current_item` no longer
references a todo or in_progress task. -/
theorem c3_invariant_counterexample :
    Reachable ("Tester", c3Bad) ∧ currentItemLiveB c3Bad = false := by
  constructor
  · have h1 : EngineStep ("DocAgent", initial_state) ("Planner", c3St1) :=
      ⟨envA, [], rfl, rfl⟩
    have h2 : EngineStep ("Planner", c3St1) ("Architect", c3St2) :=
      ⟨envA, c3Pair2.2, rfl, rfl⟩
    have h3 : EngineStep ("Architect", c3St2) ("Coder", c3St3) :=
      ⟨envA, [], rfl, rfl⟩
    have h4 : EngineStep ("Coder", c3St3) ("Tester", c3Bad) :=
      ⟨envA, c3Pair4.2, rfl, rfl⟩
    exact Relation.ReflTransGen.tail
      (Relation.ReflTransGen.tail
        (Relation.ReflTransGen.tail (Relation.ReflTransGen.single h1) h2) h3) h4
  · decide

/-- C3 (amended): the invariant holds at selection time: whenever the
Architect sets `current_item`, the selected task occurs in the roadmap
and its status is todo (in particular a task already done is never
selected); the invariant is not maintained across the Coder, which marks
the selected task done in the roadmap while leaving `current_item` set. -/
theorem c3_selection_invariant_amended (state : WFState) (t : Task)
    (h : (architect state).current_item = some t) :
    t ∈ flattenTasks (state.roadmap.getD []) ∧ t.status = some "todo" := by
  rw [architect_current_item] at h
  refine ⟨List.mem_of_find?_eq_some h, ?_⟩
  have ht := List.find?_some h
  simpa using ht

/-- C3 witness: the amended selection invariant applied at the concrete
post-planner state of the trace, where the Architect selects `rmTask1`. -/
theorem c3_selection_invariant_amended_witness :
    rmTask1 ∈ flattenTasks (c3St2.roadmap.getD []) ∧ rmTask1.status = some "todo" :=
  c3_selection_invariant_amended c3St2 rmTask1 (by decide)

/-! ### C9: termination when every task is done -/

/-- A coder invocation on a state with no current task only logs. -/
theorem coder_current_item_none (env : Env) (state : WFState)
    (h : state.current_item = none) :
    (coder env state).1.current_item = none := by
  unfold coder
  simp [h]

/-- The tester never changes `current_item`. -/
theorem tester_current_item (state : WFState) :
    (tester state).current_item = state.current_item := by
  unfold tester
  split <;> rfl

/-- The cicd stage never changes `current_item`. -/
theorem cicd_current_item (state : WFState) :
    (cicd state).current_item = state.current_item := by
  unfold cicd
  split
  · split <;> rfl
  · rfl

/-- C9: on any state whose roadmap tasks are all done, and for every
environment (hence independent of the error field and of any prior
history), the Architect clears `current_item`; it stays cleared through
Coder, Tester and CICD; and the post-verification router returns the
terminal marker. -/
theorem c9_termination_all_done (state : WFState) (env : Env)
    (h : allDone (state.roadmap.getD []) = true) :
    (architect state).current_item = none ∧
    ((coder env (architect state)).1).current_item = none ∧
    (tester (coder env (architect state)).1).current_item = none ∧
    (cicd (tester (coder env (architect state)).1)).current_item = none ∧
    should_continue (cicd (tester (coder env (architect state)).1)) = "__end__" := by
  have h' : (flattenTasks (state.roadmap.getD [])).all
      (fun t => t.status == some "done") = true := h
  have harch : (architect state).current_item = none := by
    rw [architect_current_item, List.find?_eq_none]
    intro x hx
    have hxd : x.status = some "done" := by
      have := List.all_eq_true.mp h' x hx
      simpa using this
    rw [hxd]
    decide
  have hcod := coder_current_item_none env (architect state) harch
  have htes : (tester (coder env (architect state)).1).current_item = none := by
    rw [tester_current_item]; exact hcod
  have hci : (cicd (tester (coder env (architect state)).1)).current_item = none := by
    rw [cicd_current_item]; exact htes
  refine ⟨harch, hcod, htes, hci, ?_⟩
  simp [should_continue, hci]

/-- C9 witness: termination evaluated on a concrete all-done roadmap
under the empty environment. -/
theorem c9_termination_all_done_witness :
    allDone (allDoneState.roadmap.getD []) = true ∧
    should_continue (cicd (tester (coder envEmpty (architect allDoneState)).1)) =
      "__end__" :=
  ⟨by decide, (c9_termination_all_done allDoneState envEmpty (by decide)).2.2.2.2⟩

/-! ### C7: shutdown handling and the final save -/

/-- The driver loop always has a final event when at least one event was
processed. -/
theorem driverLoop_isSome (flagAt : Nat → Bool) (e : String × WFState)
    (rest : List (String × WFState)) :
    (driverLoop flagAt (e :: rest)).isSome = true := by
  simp only [driverLoop]
  split
  · rfl
  · split <;> rfl

/-- The driver loop stops exactly at `stopIndex`: the first event after
which the shutdown flag is observed, or the last event when it never is;
no earlier flag was set. -/
theorem driverLoop_stop (flagAt : Nat → Bool) (events : List (String × WFState))
    (h : events ≠ []) :
    driverLoop flagAt events = events[stopIndex flagAt events]? ∧
    (∀ j, j < stopIndex flagAt events → flagAt j = false) ∧
    (flagAt (stopIndex flagAt events) = true ∨
      stopIndex flagAt events = events.length - 1) := by
  induction events generalizing flagAt with
  | nil => exact absurd rfl h
  | cons e rest ih =>
      by_cases hf : flagAt 0 = true
      · have hsi : stopIndex flagAt (e :: rest) = 0 := by
          simp [stopIndex, hf]
        rw [hsi]
        refine ⟨by simp [driverLoop, hf], by omega, Or.inl hf⟩
      · have hf' : flagAt 0 = false := Bool.eq_false_iff.mpr hf
        cases rest with
        | nil =>
            have hsi : stopIndex flagAt [e] = 0 := by
              simp [stopIndex, hf']
            rw [hsi]
            refine ⟨by simp [driverLoop, hf'], by omega, Or.inr rfl⟩
        | cons r rs =>
            obtain ⟨ih1, ih2, ih3⟩ :=
              ih (fun n => flagAt (n + 1)) (List.cons_ne_nil r rs)
            have hsi : stopIndex flagAt (e :: r :: rs) =
                stopIndex (fun n => flagAt (n + 1)) (r :: rs) + 1 := by
              simp [stopIndex, hf']
            obtain ⟨v, hv⟩ := Option.isSome_iff_exists.mp
              (driverLoop_isSome (fun n => flagAt (n + 1)) r rs)
            refine ⟨?_, ?_, ?_⟩
            · rw [hsi, List.getElem?_cons_succ, driverLoop, if_neg hf, hv]
              show some v = (r :: rs)[stopIndex (fun n => flagAt (n + 1)) (r :: rs)]?
              rw [← hv, ih1]
            · rw [hsi]
              intro j hj
              cases j with
              | zero => exact hf'
              | succ j => exact ih2 j (by omega)
            · rw [hsi]
              rcases ih3 with h3 | h3
              · exact Or.inl h3
              · refine Or.inr ?_
                simp only [List.length_cons] at h3 ⊢
                omega

/-- C7 (amended): the shutdown handler only sets the flag; the driver
loop checks it only after an event (a completed stage) has been
processed, so the final state is always a fully-completed stage state —
the one at `stopIndex`, before which the flag was never observed; on
exit the run log is always persisted and the roadmap is persisted
exactly when the final state carries a non-empty roadmap, in which case
the persisted roadmap is exactly that of the last completed stage. -/
theorem c7_shutdown_amended (flagAt : Nat → Bool) (events : List (String × WFState))
    (h : events ≠ []) :
    (∀ b : Bool, signal_handler b = true) ∧
    driverLoop flagAt events = events[stopIndex flagAt events]? ∧
    (∀ j, j < stopIndex flagAt events → flagAt j = false) ∧
    (flagAt (stopIndex flagAt events) = true ∨
        stopIndex flagAt events = events.length - 1) ∧
    finalSave (driverLoop flagAt events) =
      (events[stopIndex flagAt events]?).map
        (fun ev => roadmapSaveEffects ev.2 ++ [Effect.writeRunLog ev.2.run_log]) := by
  obtain ⟨h1, h2, h3⟩ := driverLoop_stop flagAt events h
  refine ⟨fun b => rfl, h1, h2, h3, ?_⟩
  rw [h1]
  cases events with
  | nil => exact absurd rfl h
  | cons e rest =>
      cases hge : (e :: rest)[stopIndex flagAt (e :: rest)]? with
      | none =>
          have hs := driverLoop_isSome flagAt e rest
          rw [h1, hge] at hs
          exact Bool.noConfusion hs
      | some ev =>
          obtain ⟨n, st⟩ := ev
          rfl

/-- C7 counterexample: when the run is interrupted right after the
DocAgent stage (no roadmap in the state yet), the exit handler persists
only the run log — no final persistence of the roadmap occurs, against
the claim that both are always persisted. -/
theorem c7_final_save_counterexample :
    c3St1.roadmap = none ∧
    finalSave (driverLoop (fun _ => true) interruptedEvents) =
      some [Effect.writeRunLog c3St1.run_log] ∧
    ((finalSave (driverLoop (fun _ => true) interruptedEvents)).getD []).filter
      Effect.isRoadmapWrite = [] := by
  refine ⟨rfl, rfl, rfl⟩

/-- C7 witness: the amended driver-loop facts applied to the concrete
one-event stream with the flag never set. -/
theorem c7_shutdown_amended_witness :
    driverLoop (fun _ => false) interruptedEvents = some ("DocAgent", c3St1) := by
  have h := (c7_shutdown_amended (fun _ => false) interruptedEvents
    (List.cons_ne_nil _ _)).2.1
  exact h.trans rfl

/-! ### C10: the shell tool contract -/

/-- C10: `run_shell_command` always returns an (exit code, combined
stdout plus stderr) pair: a raised `DockerException` or any other
exception is mapped to exit code 1 with a message; a successful exec
returns its exit code with the decoded concatenated output; and inside
the Coder command loop, the exit code being non-zero is exactly what
makes the stage stop and set the error field, a zero exit code exactly
what makes it continue. -/
theorem c10_run_shell_contract (env : Env) (command container_name : String) :
    (∀ e, env.docker command container_name = .dockerError e →
        run_shell_command env command container_name =
          (1, "An unexpected error occurred: " ++ e)) ∧
    (∀ e, env.docker command container_name = .otherError e →
        run_shell_command env command container_name =
          (1, "A general error occurred: " ++ e)) ∧
    (∀ ec so se, env.docker command container_name = .success ec so se →
        run_shell_command env command container_name =
          (ec, so.getD "" ++ se.getD "")) ∧
    (∀ (state : WFState) (log : List String) (effs : List Effect)
        (rest : List String),
        ((run_shell_command env command).1 = 0 →
          runCmds env state log effs (command :: rest) =
            runCmds env state
              (log ++ [coderCmdLogMsg command (run_shell_command env command)])
              (effs ++ [Effect.execCommand command]) rest) ∧
        ((run_shell_command env command).1 ≠ 0 →
          runCmds env state log effs (command :: rest) =
            .inl ({ state with
                     error := some ("Command failed: " ++ command),
                     run_log := log ++
                       [coderCmdLogMsg command (run_shell_command env command)] ++
                       ["[Coder] Failure: Command " ++ command ++
                         " failed. Halting execution for this task."] },
                  effs ++ [Effect.execCommand command]))) := by
  refine ⟨?_, ?_, ?_, ?_⟩
  · intro e he; unfold run_shell_command; rw [he]
  · intro e he; unfold run_shell_command; rw [he]
  · intro ec so se he; unfold run_shell_command; rw [he]
  · intro state log effs rest
    constructor
    · intro h0
      have hb : ((run_shell_command env command).1 != 0) = false := by
        rw [h0]; rfl
      simp only [runCmds, hb, Bool.false_eq_true, if_false]
    · intro hne
      have hb : ((run_shell_command env command).1 != 0) = true := by
        simpa [bne_iff_ne] using hne
      simp only [runCmds, hb, if_true]

/-- C10 witness: the exception mapping applied at a concrete command
against a docker daemon that raises. -/
theorem c10_run_shell_contract_witness :
    run_shell_command envDockerFail "ls -la" "openhands_runtime" =
      (1, "An unexpected error occurred: no daemon") :=
  (c10_run_shell_contract envDockerFail "ls -la" "openhands_runtime").1 "no daemon" rfl

end GraphSkeleton
